import Mathlib

/-!
Shallow embedding of the summarization / template-engine core of the
AutoMakeDocument repository (src/src/core/summarizer.py,
src/src/core/template_engine.py, src/src/utils/date_utils.py), together
with theorems settling the specification claims about it.

Python strings are modelled as Lean `String`, Python `None`/str/list/dict
values as the inductive `PyValue`, Python dicts as insertion-ordered
association lists, and floating-point arithmetic as `ℚ`.  External
collaborators (the sumy ranking backends) are modelled as uninterpreted
function parameters carried in the `SummarizerM` structure; a raised
exception from such a backend is an `Except.error` carrying `str(e)`.
-/

/-- Python `sep.join(parts)`: empty string for `[]`, otherwise the parts
interleaved with the separator. -/
def pyJoin (sep : String) : List String → String
  | [] => ""
  | [x] => x
  | x :: y :: rest => x ++ sep ++ pyJoin sep (y :: rest)

/-- Characters removed by Python `str.strip()` (whitespace). -/
def wsChar (c : Char) : Bool := c.isWhitespace

/-- Drop leading and trailing whitespace from a character list. -/
def trimChars (l : List Char) : List Char :=
  ((l.dropWhile wsChar).reverse.dropWhile wsChar).reverse

/-- Python `str.strip()` with no argument. -/
def pyStrip (s : String) : String := ⟨trimChars s.data⟩

/-- Python `str.lower()` (ASCII model). -/
def pyLower (s : String) : String := ⟨s.data.map Char.toLower⟩

/-- Python `dict.get(k)` on an insertion-ordered association list. -/
def pyGet {α : Type} (m : List (String × α)) (k : String) : Option α :=
  (m.find? (fun kv => kv.1 == k)).map (fun kv => kv.2)

/-- Python `d[k] = v` on an insertion-ordered association list: update in
place when the key exists, append otherwise. -/
def pyDictInsert {α : Type} (m : List (String × α)) (k : String) (v : α) :
    List (String × α) :=
  match m with
  | [] => [(k, v)]
  | kv :: rest => if kv.1 == k then (k, v) :: rest else kv :: pyDictInsert rest k v

/-- Stable insertion used by `sortBy`: `before b a` means `b` must stay
strictly before `a`; on ties the earlier (already-placed) element wins,
matching Python's stable `sorted`. -/
def insertBy {α : Type} (before : α → α → Bool) (a : α) : List α → List α
  | [] => [a]
  | b :: bs => if before b a then b :: insertBy before a bs else a :: b :: bs

/-- Stable sort (model of Python `sorted` / `list.sort`). -/
def sortBy {α : Type} (before : α → α → Bool) : List α → List α
  | [] => []
  | a :: as => insertBy before a (sortBy before as)

/-- Digits-to-number helper for the date parser. -/
def natOfDigits (l : List Char) : Nat :=
  l.foldl (fun n c => n * 10 + (c.toNat - 48)) 0

/-- Zero-padded two-digit rendering (model of strftime `%m`/`%d`/`%H`/`%M`). -/
def pad2 (n : Nat) : String :=
  if n < 10 then "0" ++ toString n else toString n

/-- Split a character list on a separator character (model of
`str.split(sep)` for a one-character separator). -/
def splitOnChar (c : Char) : List Char → List (List Char)
  | [] => [[]]
  | x :: rest =>
    if x == c then [] :: splitOnChar c rest
    else
      match splitOnChar c rest with
      | [] => [[x]]
      | h :: t => (x :: h) :: t

/-- Model of Python `datetime.date`: a year/month/day triple. -/
structure PyDate where
  year : Nat
  month : Nat
  day : Nat
deriving DecidableEq, Repr

/-- Leap-year rule used by the Gregorian calendar. -/
def isLeap (y : Nat) : Bool := (y % 4 == 0 && y % 100 != 0) || y % 400 == 0

/-- Days in a month of a given year. -/
def daysInMonth (y m : Nat) : Nat :=
  if m == 2 then (if isLeap y then 29 else 28)
  else if m == 4 || m == 6 || m == 9 || m == 11 then 30
  else 31

/-- Model of `DateUtils.parse_date` (date_utils.py): strict
`"%Y-%m-%d"` parse returning `none` on failure. -/
def parse_date (s : String) : Option PyDate :=
  match splitOnChar '-' s.data with
  | [y, m, d] =>
    if y ≠ [] && y.all Char.isDigit && y.length ≤ 4 &&
       m ≠ [] && m.all Char.isDigit && m.length ≤ 2 &&
       d ≠ [] && d.all Char.isDigit && d.length ≤ 2 then
      let yn := natOfDigits y
      let mn := natOfDigits m
      let dn := natOfDigits d
      if 1 ≤ yn && yn ≤ 9999 && 1 ≤ mn && mn ≤ 12 && 1 ≤ dn &&
         dn ≤ daysInMonth yn mn then
        some ⟨yn, mn, dn⟩
      else none
    else none
  | _ => none

/-- Sakamoto day-of-week table. -/
def sakamotoT : List Nat := [0, 3, 2, 5, 0, 3, 5, 1, 4, 6, 2, 4]

/-- Model of Python `date.weekday()`: Monday = 0 … Sunday = 6. -/
def pyWeekday (d : PyDate) : Nat :=
  let y := if d.month < 3 then d.year - 1 else d.year
  (y + y / 4 - y / 100 + y / 400 + sakamotoT.getD (d.month - 1) 0 + d.day + 6) % 7

/-- `DateUtils.WEEKDAY_NAMES_JA` (date_utils.py). -/
def WEEKDAY_NAMES_JA : List String := ["月", "火", "水", "木", "金", "土", "日"]

/-- `DateUtils.get_weekday_name` (Japanese branch, date_utils.py). -/
def get_weekday_name (d : PyDate) : String :=
  (WEEKDAY_NAMES_JA).getD (pyWeekday d) ""

/-- `DateUtils.format_date_japanese` (date_utils.py):
`f"{year}年{month}月{day}日（{weekday}）"`. -/
def format_date_japanese (d : PyDate) : String :=
  toString d.year ++ "年" ++ toString d.month ++ "月" ++ toString d.day ++
    "日（" ++ get_weekday_name d ++ "）"

/-- Model of the Python values flowing through the template engine:
`None`, strings, lists and string-keyed dicts. -/
inductive PyValue where
  | none : PyValue
  | str (s : String) : PyValue
  | list (xs : List PyValue) : PyValue
  | dict (kvs : List (String × PyValue)) : PyValue
deriving Repr

/-- Python `repr` of a value (model, used by `str` on containers). -/
def pyRepr : PyValue → String
  | .none => "None"
  | .str s => "'" ++ s ++ "'"
  | .list xs => "[" ++ pyJoin ", " (xs.attach.map (fun x => pyRepr x.1)) ++ "]"
  | .dict kvs =>
    "\x7b" ++
      pyJoin ", " (kvs.attach.map (fun kv => "'" ++ kv.1.1 ++ "': " ++ pyRepr kv.1.2)) ++
      "\x7d"
decreasing_by
  · have := List.sizeOf_lt_of_mem x.2; simp at this ⊢; omega
  · obtain ⟨⟨k, v⟩, hk⟩ := kv
    have := List.sizeOf_lt_of_mem hk
    simp at this ⊢
    omega

/-- Python `str` of a value (f-string rendering). -/
def pyStr : PyValue → String
  | .str s => s
  | v => pyRepr v

/-- Python truthiness of a value. -/
def pyTruthy : PyValue → Bool
  | .none => false
  | .str s => s.data ≠ []
  | .list xs => !xs.isEmpty
  | .dict kvs => !kvs.isEmpty

/-- `WorkLog` dataclass (data_manager.py). -/
structure WorkLog where
  date : String
  content : String
  created_at : String
  updated_at : String
  tags : List String
deriving Repr

/-- The list of parts accumulated by `Summarizer._combine_logs`
(summarizer.py lines 129-153): for each log with non-blank content, an
optional date-header part, the stripped content, and an empty separator
part; blank logs contribute nothing. -/
def combinedParts : List WorkLog → List String
  | [] => []
  | lg :: rest =>
    if pyStrip lg.content == "" then combinedParts rest
    else
      (match parse_date lg.date with
       | some d => ["【" ++ format_date_japanese d ++ "】"]
       | Option.none => []) ++
      [pyStrip lg.content, ""] ++ combinedParts rest

/-- `Summarizer._combine_logs` (summarizer.py): newline join of the parts. -/
def combine_logs (logs : List WorkLog) : String :=
  pyJoin "\n" (combinedParts logs)

/-- First substitution of `Summarizer._preprocess_text`:
`re.sub(r'[【】「」（）()[\]{}]', '', text)` — drop the bracket characters. -/
def bracketChar (c : Char) : Bool :=
  c == '【' || c == '】' || c == '「' || c == '」' || c == '（' || c == '）' ||
  c == '(' || c == ')' || c == '[' || c == ']' || c == '\x7b' || c == '\x7d'

/-- Second substitution of `Summarizer._preprocess_text`:
`re.sub(r'\s+', ' ', text)` — collapse every whitespace run to one space.
The Boolean state records whether the previous character was whitespace. -/
def collapseWsAux (inWs : Bool) : List Char → List Char
  | [] => []
  | c :: rest =>
    if wsChar c then
      if inWs then collapseWsAux true rest else ' ' :: collapseWsAux true rest
    else c :: collapseWsAux false rest

/-- Third substitution of `Summarizer._preprocess_text`:
`re.sub(r'\n\s*\n', '\n', text)`.  On a `'\n'`, the greedy `\s*` consumes
the following whitespace run and backtracks to the last `'\n'` in it; the
match is replaced by a single `'\n'` and scanning resumes after it.  The
fuel argument (initialised to the list length) only serves structural
recursion: every step consumes at least one character, so it never runs
out. -/
def step3Aux : Nat → List Char → List Char
  | 0, _ => []
  | _ + 1, [] => []
  | fuel + 1, c :: rest =>
    if c == '\n' then
      let ws := rest.takeWhile wsChar
      if ws.contains '\n' then
        let b := (ws.reverse.takeWhile (fun x => x != '\n')).reverse
        '\n' :: step3Aux fuel (b ++ rest.dropWhile wsChar)
      else c :: step3Aux fuel rest
    else c :: step3Aux fuel rest

/-- Entry point of the third substitution. -/
def step3 (l : List Char) : List Char := step3Aux l.length l

/-- `Summarizer._preprocess_text` (summarizer.py lines 192-211): drop
bracket characters, collapse whitespace runs, collapse blank lines, strip. -/
def preprocess_text (text : String) : String :=
  pyStrip ⟨step3 (collapseWsAux false (text.data.filter (fun c => !bracketChar c)))⟩

/-- Model of a `Summarizer` instance (summarizer.py lines 41-78): the
configured language and stop words, and the three sumy ranking backends as
uninterpreted functions from (pre-processed text, sentence count) to either
a sentence list or a raised exception's message.  `janome_tokenizer` is
always `None` in the source (line 67), so it does not appear. -/
structure SummarizerM where
  language : String
  stop_words : List String
  rank_textrank : String → Nat → Except String (List String)
  rank_lexrank : String → Nat → Except String (List String)
  rank_lsa : String → Nat → Except String (List String)

/-- `self.summarizers.get(method, self.summarizers["textrank"])`
(summarizer.py line 178). -/
def selectRanker (s : SummarizerM) (method : String) :
    String → Nat → Except String (List String) :=
  if method == "textrank" then s.rank_textrank
  else if method == "lexrank" then s.rank_lexrank
  else if method == "lsa" then s.rank_lsa
  else s.rank_textrank

/-- `Summarizer._extract_summary` (summarizer.py lines 155-190). -/
def extract_summary (s : SummarizerM) (text method : String)
    (sentences_count : Nat) : List String :=
  let cleaned_text := preprocess_text text
  if pyStrip cleaned_text == "" then ["要約するテキストがありません。"]
  else
    match selectRanker s method cleaned_text sentences_count with
    | .error e => ["要約の生成中にエラーが発生しました: " ++ e]
    | .ok summary_sentences =>
      if summary_sentences.isEmpty then ["要約の生成に失敗しました。"]
      else summary_sentences

/-- `\w` of Python `re` (ASCII model): alphanumeric or underscore. -/
def wordChar (c : Char) : Bool := c.isAlphanum || c == '_'

/-- `re.findall(r'\b\w+\b', text)`: the maximal runs of word characters,
accumulated in `cur` (reversed) while scanning. -/
def findWordsAux (cur : List Char) : List Char → List String
  | [] => if cur.isEmpty then [] else [⟨cur.reverse⟩]
  | c :: rest =>
    if wordChar c then findWordsAux (c :: cur) rest
    else if cur.isEmpty then findWordsAux [] rest
    else ⟨cur.reverse⟩ :: findWordsAux [] rest

/-- Tokenisation used by `Summarizer._extract_key_points_generic`. -/
def findWords (l : List Char) : List String := findWordsAux [] l

/-- One step of Python dict-based frequency counting: increment the count
of `w`, appending it with count 1 when absent. -/
def bumpFreq : List (String × Nat) → String → List (String × Nat)
  | [], w => [(w, 1)]
  | kv :: rest, w =>
    if kv.1 == w then (kv.1, kv.2 + 1) :: rest else kv :: bumpFreq rest w

/-- Insertion-ordered frequency table of a word list (Python dict). -/
def countFreq (ws : List String) : List (String × Nat) :=
  ws.foldl bumpFreq []

/-- The `sorted_words` value of `Summarizer._extract_key_points_generic`
(summarizer.py lines 285-297): lowercase, tokenize, drop stop words and
short tokens, count, and stably sort by descending frequency. -/
def rankedWordFreq (s : SummarizerM) (text : String) : List (String × Nat) :=
  let words := findWords (pyLower text).data
  let filtered_words :=
    words.filter (fun w => !(s.stop_words.contains w) && w.data.length > 2)
  sortBy (fun b a => a.2 < b.2) (countFreq filtered_words)

/-- `Summarizer._extract_key_points_generic` (summarizer.py lines 274-302):
`[word for word, freq in sorted_words[:max_points] if freq > 1]`. -/
def extract_key_points_generic (s : SummarizerM) (text : String)
    (max_points : Nat) : List String :=
  (((rankedWordFreq s text).take max_points).filter (fun p => 1 < p.2)).map
    (fun p => p.1)

/-- The key-point pipeline in the order the specification words it: sort by
descending frequency, drop entries with frequency ≤ 1, then truncate to
`max_points`.  Declared only to be compared with
`extract_key_points_generic`, which truncates before dropping. -/
def extract_key_points_spec (s : SummarizerM) (text : String)
    (max_points : Nat) : List String :=
  (((rankedWordFreq s text).filter (fun p => 1 < p.2)).take max_points).map
    (fun p => p.1)

/-- `Summarizer._extract_key_points` (summarizer.py lines 213-237):
`janome_tokenizer` is always `None` (line 67), so the generic path runs. -/
def extract_key_points (s : SummarizerM) (text : String)
    (max_points : Nat := 10) : List String :=
  extract_key_points_generic s text max_points

/-- `SummaryResult` dataclass (summarizer.py lines 30-39); the Python float
`compression_ratio` is modelled as a rational. -/
structure SummaryResult where
  summary_text : String
  key_points : List String
  word_count : Nat
  original_count : Nat
  compression_ratio : ℚ
  method : String
  created_at : String

/-- `Summarizer.summarize_work_logs` (summarizer.py lines 80-127); `now`
stands for `DateUtils.get_now().isoformat()`. -/
def summarize_work_logs (s : SummarizerM) (logs : List WorkLog)
    (method : String) (sentences_count : Nat) (now : String) : SummaryResult :=
  let combined_text := combine_logs logs
  if pyStrip combined_text == "" then
    { summary_text := "要約するテキストがありません。"
      key_points := []
      word_count := 0
      original_count := 0
      compression_ratio := 0
      method := method
      created_at := now }
  else
    let summary_sentences := extract_summary s combined_text method sentences_count
    let summary_text := pyJoin "\n" summary_sentences
    let key_points := extract_key_points s combined_text
    let original_count := combined_text.length
    let word_count := summary_text.length
    let compression_ratio : ℚ :=
      if 0 < original_count then ((word_count : ℚ) / (original_count : ℚ)) * 100
      else 0
    { summary_text := summary_text
      key_points := key_points
      word_count := word_count
      original_count := original_count
      compression_ratio := compression_ratio
      method := method
      created_at := now }

/-- Model of `datetime.fromisoformat` as used by the `datetime` field
coercion: a date, optionally followed by `'T'` or a space and `HH:MM[:SS]`;
`none` models a raised `ValueError`. -/
def parseIsoDatetime (s : String) : Option (PyDate × Nat × Nat) :=
  let parts :=
    if s.data.contains 'T' then splitOnChar 'T' s.data else splitOnChar ' ' s.data
  match parts with
  | [dstr] => (parse_date ⟨dstr⟩).map (fun d => (d, 0, 0))
  | [dstr, tstr] =>
    match parse_date ⟨dstr⟩ with
    | Option.none => Option.none
    | some d =>
      let timeOk (h m : List Char) : Bool :=
        h ≠ [] && h.all Char.isDigit && h.length ≤ 2 &&
        m.all Char.isDigit && m.length = 2 &&
        natOfDigits h < 24 && natOfDigits m < 60
      match splitOnChar ':' tstr with
      | [h, m] =>
        if timeOk h m then some (d, natOfDigits h, natOfDigits m)
        else Option.none
      | [h, m, sec] =>
        if timeOk h m && sec.all Char.isDigit && sec.length = 2 &&
           natOfDigits sec < 60 then
          some (d, natOfDigits h, natOfDigits m)
        else Option.none
      | _ => Option.none
  | _ => Option.none

/-- `dt.strftime("%Y年%m月%d日 %H:%M")` (template_engine.py line 297). -/
def formatDatetimeJa (dt : PyDate × Nat × Nat) : String :=
  toString dt.1.year ++ "年" ++ pad2 dt.1.month ++ "月" ++ pad2 dt.1.day ++
    "日 " ++ pad2 dt.2.1 ++ ":" ++ pad2 dt.2.2

/-- `TemplateField` dataclass (template_engine.py lines 15-22). -/
structure TemplateField where
  name : String
  type : String
  required : Bool
  default : PyValue
  description : String

/-- `TemplateSection` dataclass (template_engine.py lines 24-31). -/
structure TemplateSection where
  name : String
  title : String
  fields : List TemplateField
  order : Int
  visible : Bool

/-- `Template` dataclass (template_engine.py lines 33-42). -/
structure Template where
  id : String
  name : String
  description : String
  sections : List TemplateSection
  output_format : String
  created_at : String
  updated_at : String

/-- A field's YAML dictionary as read by `_parse_template_config`; absent
optional keys are `none`, and an absent or null `default` is `PyValue.none`
(both give `None` through `dict.get`). -/
structure FieldConfig where
  name : String
  type : Option String
  required : Option Bool
  default : PyValue
  description : Option String

/-- A section's YAML dictionary; an absent `fields` key is the empty list. -/
structure SectionConfig where
  name : String
  title : Option String
  fields : List FieldConfig
  order : Option Int
  visible : Option Bool

/-- A template's YAML dictionary; an absent `sections` key is the empty list. -/
structure TemplateConfig where
  id : String
  name : String
  description : Option String
  sections : List SectionConfig
  output_format : Option String
  created_at : Option String
  updated_at : Option String

/-- Field parsing inside `_parse_template_config` (lines 133-141). -/
def parseFieldConfig (fc : FieldConfig) : TemplateField :=
  { name := fc.name
    type := fc.type.getD "text"
    required := fc.required.getD false
    default := fc.default
    description := fc.description.getD "" }

/-- Section parsing inside `_parse_template_config` (lines 130-150). -/
def parseSectionConfig (sc : SectionConfig) : TemplateSection :=
  { name := sc.name
    title := sc.title.getD sc.name
    fields := sc.fields.map parseFieldConfig
    order := sc.order.getD 0
    visible := sc.visible.getD true }

/-- `TemplateEngine._parse_template_config` (lines 118-163): parse sections
and fields, sort sections stably by `order`, and fill string defaults;
`now` stands for `datetime.now().isoformat()`. -/
def parse_template_config (cfg : TemplateConfig) (now : String) : Template :=
  { id := cfg.id
    name := cfg.name
    description := cfg.description.getD ""
    sections := sortBy (fun b a => b.order < a.order) (cfg.sections.map parseSectionConfig)
    output_format := cfg.output_format.getD "text"
    created_at := cfg.created_at.getD now
    updated_at := cfg.updated_at.getD now }

/-- The dictionary written by `TemplateEngine.save_template`
(lines 411-440): every key present, `updated_at` replaced by `now`. -/
def templateToConfig (t : Template) (now : String) : TemplateConfig :=
  { id := t.id
    name := t.name
    description := some t.description
    output_format := some t.output_format
    created_at := some t.created_at
    updated_at := some now
    sections := t.sections.map (fun sec =>
      { name := sec.name
        title := some sec.title
        order := some sec.order
        visible := some sec.visible
        fields := sec.fields.map (fun f =>
          { name := f.name
            type := some f.type
            required := some f.required
            default := f.default
            description := some f.description }) }) }

/-- One template file on disk: a parseable YAML document or an
unreadable/unparseable one (any exception during read or parse). -/
inductive TemplateFile where
  | good (cfg : TemplateConfig) : TemplateFile
  | bad : TemplateFile

/-- The mutable state of a `TemplateEngine`: the backing files keyed by
template id, and the in-memory `template_cache`. -/
structure EngineState where
  files : List (String × TemplateFile)
  cache : List (String × Template)

/-- `TemplateEngine.load_template` (lines 83-116): cache first, then the
backing file; a missing or unparseable file yields `none` and caches
nothing; a parsed template is cached. -/
def load_template (st : EngineState) (template_id : String) (now : String) :
    Option Template × EngineState :=
  match pyGet st.cache template_id with
  | some t => (some t, st)
  | Option.none =>
    match pyGet st.files template_id with
    | Option.none => (Option.none, st)
    | some TemplateFile.bad => (Option.none, st)
    | some (TemplateFile.good cfg) =>
      let t := parse_template_config cfg now
      (some t, { st with cache := pyDictInsert st.cache template_id t })

/-- `TemplateEngine.save_template` (lines 399-455): write the serialized
dictionary to the backing file and put the original in-memory template in
the cache; in this model the write always succeeds, so the result is
`true`. -/
def save_template (st : EngineState) (t : Template) (now : String) :
    Bool × EngineState :=
  (true,
   { files := pyDictInsert st.files t.id (TemplateFile.good (templateToConfig t now))
     cache := pyDictInsert st.cache t.id t })

/-- `field_mapping` (template_engine.py lines 249-265). -/
def field_mapping : List (String × String) :=
  [("weekly_summary", "summary_text"),
   ("summary_text", "summary_text"),
   ("keywords", "keywords"),
   ("generated_at", "generated_at"),
   ("creation_date", "generated_at"),
   ("report_date", "generated_at"),
   ("daily_summary", "summary_text"),
   ("monthly_summary", "summary_text"),
   ("key_achievements", "summary_text"),
   ("completed_tasks", "summary_text"),
   ("ongoing_tasks", "summary_text"),
   ("project_summary", "summary_text"),
   ("activity_summary", "summary_text"),
   ("progress_summary", "summary_text"),
   ("achievement_summary", "summary_text")]

/-- Lines 267-271 of `TemplateEngine._get_field_value`:
`mapped_field = field_mapping.get(field.name, field.name)` followed by
`value = data.get(mapped_field, field.default)`. -/
def resolveRaw (f : TemplateField) (data : List (String × PyValue)) : PyValue :=
  let mapped_field := (pyGet field_mapping f.name).getD f.name
  (pyGet data mapped_field).getD f.default

/-- Python `value is None or value == ""`. -/
def isNoneOrEmptyStr : PyValue → Bool
  | .none => true
  | .str s => s == ""
  | _ => false

/-- `TemplateEngine._get_field_value` (lines 237-316): raw resolution,
required-field placeholders, then type-directed coercion. -/
def get_field_value (f : TemplateField) (data : List (String × PyValue)) :
    PyValue :=
  let value := resolveRaw f data
  if f.required && isNoneOrEmptyStr value then
    if f.name == "week_start_date" || f.name == "week_end_date" then
      .str "指定なし"
    else if f.name == "reporter_name" then .str "報告者名未設定"
    else if f.name == "department" then .str "部署未設定"
    else .str ("[必須フィールド '" ++ f.name ++ "' が未入力です]")
  else if f.type == "date" then
    match value with
    | .str s =>
      match parse_date s with
      | some d => .str (format_date_japanese d)
      | Option.none => value
    | _ => value
  else if f.type == "datetime" then
    match value with
    | .str s =>
      match parseIsoDatetime s with
      | some dt => .str (formatDatetimeJa dt)
      | Option.none => value
    | _ => value
  else if f.type == "list" then
    match value with
    | .list xs =>
      .str (pyJoin "\n" ((xs.filter pyTruthy).map (fun item => "• " ++ pyStr item)))
    | _ => value
  else if f.type == "summary" then
    match value with
    | .dict kvs =>
      match pyGet kvs "summary_text" with
      | some v => v
      | Option.none =>
        match pyGet kvs "summary" with
        | some v => v
        | Option.none => value
    | _ => value
  else value

/-- One `section_data` entry of `TemplateEngine.apply_template`
(lines 219-228): the section's name and title and the `content` dict. -/
structure SectionData where
  name : String
  title : String
  content : List (String × PyValue)

/-- The success shape of `TemplateEngine.apply_template` (lines 208-213). -/
structure TemplateResult where
  template_id : String
  template_name : String
  generated_at : String
  sections : List SectionData

/-- What `apply_template` returns: the structured result or an
`{"error": msg}` dictionary. -/
inductive ApplyOutcome where
  | ok (r : TemplateResult) : ApplyOutcome
  | error (msg : String) : ApplyOutcome

/-- `TemplateEngine.apply_template` (lines 188-235); `now` stands for
`datetime.now().isoformat()`.  The body of the `try` block is total in
this model, so the generic exception branch of the source is
unreachable and does not appear. -/
def apply_template (st : EngineState) (template_id : String)
    (data : List (String × PyValue)) (now : String) : ApplyOutcome × EngineState :=
  match load_template st template_id now with
  | (Option.none, st') =>
    (.error ("テンプレート '" ++ template_id ++ "' が見つかりません"), st')
  | (some t, st') =>
    (.ok
      { template_id := template_id
        template_name := t.name
        generated_at := now
        sections := (t.sections.filter (fun sec => sec.visible)).map (fun sec =>
          { name := sec.name
            title := sec.title
            content := sec.fields.foldl
              (fun m f => pyDictInsert m f.name (get_field_value f data)) [] }) },
     st')

/-- The `lines` list of `TemplateEngine._format_text` (lines 336-355). -/
def format_text_lines (r : TemplateResult) : List String :=
  ["# " ++ r.template_name, "作成日時: " ++ r.generated_at, ""] ++
  r.sections.flatMap (fun sec =>
    ["## " ++ sec.title, ""] ++
    sec.content.flatMap (fun kv =>
      if isNoneOrEmptyStr kv.2 then [] else [kv.1 ++ ": " ++ pyStr kv.2, ""]))

/-- The `lines` list of `TemplateEngine._format_markdown` (lines 357-377). -/
def format_markdown_lines (r : TemplateResult) : List String :=
  ["# " ++ r.template_name, "**作成日時**: " ++ r.generated_at, ""] ++
  r.sections.flatMap (fun sec =>
    ["## " ++ sec.title, ""] ++
    sec.content.flatMap (fun kv =>
      if isNoneOrEmptyStr kv.2 then []
      else ["**" ++ kv.1 ++ "**:", pyStr kv.2, ""]))

/-- The `lines` list of `TemplateEngine._format_html` (lines 379-397). -/
def format_html_lines (r : TemplateResult) : List String :=
  ["<html><head><meta charset='utf-8'></head><body>",
   "<h1>" ++ r.template_name ++ "</h1>",
   "<p><strong>作成日時</strong>: " ++ r.generated_at ++ "</p>"] ++
  r.sections.flatMap (fun sec =>
    ["<h2>" ++ sec.title ++ "</h2>"] ++
    sec.content.flatMap (fun kv =>
      if isNoneOrEmptyStr kv.2 then []
      else ["<p><strong>" ++ kv.1 ++ "</strong>: " ++ pyStr kv.2 ++ "</p>"])) ++
  ["</body></html>"]

/-- `TemplateEngine.format_output` (lines 318-334). -/
def format_output (r : TemplateResult) (output_format : String) : String :=
  if output_format == "markdown" then pyJoin "\n" (format_markdown_lines r)
  else if output_format == "html" then pyJoin "\n" (format_html_lines r)
  else pyJoin "\n" (format_text_lines r)

/-- The field-resolution rule exactly as claim C1 words it: look up the
alias target in `data` first, fall back to the field's own name in `data`,
and only then to the configured default.  Declared solely to be compared
with `resolveRaw`, which is the source's rule. -/
def resolveSpec (f : TemplateField) (data : List (String × PyValue)) : PyValue :=
  match pyGet data ((pyGet field_mapping f.name).getD f.name) with
  | some v => v
  | Option.none =>
    match pyGet data f.name with
    | some v => v
    | Option.none => f.default

/-- Concrete summarizer whose ranking backends always succeed (used to
instantiate universally quantified theorems). -/
def sdemoPlain : SummarizerM :=
  { language := "japanese"
    stop_words := []
    rank_textrank := fun _ _ => Except.ok ["sentence one"]
    rank_lexrank := fun _ _ => Except.ok ["sentence two"]
    rank_lsa := fun _ _ => Except.ok ["sentence three"] }

/-- Concrete summarizer whose ranking backends always raise (models a sumy
failure). -/
def sdemoErr : SummarizerM :=
  { language := "japanese"
    stop_words := []
    rank_textrank := fun _ _ => Except.error "boom"
    rank_lexrank := fun _ _ => Except.error "boom"
    rank_lsa := fun _ _ => Except.error "boom" }

/-- A work log with non-blank content. -/
def logA : WorkLog := ⟨"2024-01-01", "Implemented feature X", "", "", []⟩

/-- A work log with whitespace-only content. -/
def logBlank : WorkLog := ⟨"2024-01-02", "   ", "", "", []⟩

/-- A second work log with non-blank content. -/
def logB : WorkLog := ⟨"2024-01-03", "More work", "", "", []⟩

/-- A template field whose name is in the alias table
(`weekly_summary ↦ summary_text`). -/
def fieldAliased : TemplateField := ⟨"weekly_summary", "text", false, PyValue.none, ""⟩

/-- A template field whose name is not in the alias table. -/
def fieldPlain : TemplateField := ⟨"free_text", "text", false, PyValue.none, ""⟩

/-- A required field named `reporter_name` with no default. -/
def fieldReporter : TemplateField := ⟨"reporter_name", "text", true, PyValue.none, ""⟩

/-- A concrete template used for the save/load round-trip. -/
def t2demo : Template :=
  { id := "t1"
    name := "T1"
    description := "d"
    sections := [⟨"sec1", "Sec 1", [fieldReporter], 0, true⟩]
    output_format := "text"
    created_at := "2024-01-01T00:00:00"
    updated_at := "2024-01-01T00:00:00" }

/-- A fresh engine state: no backing files, empty cache. -/
def st0 : EngineState := ⟨[], []⟩

/-- Looking up the key just inserted by `pyDictInsert` returns the new
value. -/
theorem pyGet_pyDictInsert_self {α : Type} (m : List (String × α)) (k : String)
    (v : α) : pyGet (pyDictInsert m k v) k = some v := by
  induction m with
  | nil => simp [pyDictInsert, pyGet]
  | cons kv rest ih =>
    by_cases h : kv.1 = k
    · simp [pyDictInsert, h, pyGet]
    · simp only [pyDictInsert, pyGet] at ih ⊢
      simp [h, List.find?, ih]

/-- A member of a joined list is an infix of the join. -/
theorem mem_join_contains (sep : String) :
    ∀ (ls : List String) (x : String), x ∈ ls → x.data <:+: (pyJoin sep ls).data := by
  intro ls
  induction ls with
  | nil => intro x hx; cases hx
  | cons a t ih =>
    intro x hx
    cases t with
    | nil =>
      have : x = a := by simpa using hx
      subst this
      exact ⟨[], [], by simp [pyJoin]⟩
    | cons b t2 =>
      rcases List.mem_cons.mp hx with rfl | hx'
      · refine ⟨[], (sep ++ pyJoin sep (b :: t2)).data, ?_⟩
        simp [pyJoin, String.data_append]
      · obtain ⟨u, v, huv⟩ := ih x hx'
        refine ⟨(a ++ sep).data ++ u, v, ?_⟩
        simp [pyJoin, String.data_append, ← huv]

/-- Transfer an infix of one line to an infix of the whole join. -/
theorem join_contains_of_line_contains (sep : String) (ls : List String) (x l : String)
    (hl : l ∈ ls) (hx : x.data <:+: l.data) : x.data <:+: (pyJoin sep ls).data :=
  hx.trans (mem_join_contains sep ls l hl)

/-- A string with a non-empty infix is itself non-empty. -/
theorem ne_empty_of_contains {x j : String} (h : x.data <:+: j.data)
    (hx : x.data ≠ []) : j ≠ "" := by
  intro hj
  obtain ⟨s, t, hst⟩ := h
  rw [hj] at hst
  simp only [List.append_eq_nil] at hst
  exact hx hst.1.2

/-- A join containing a non-empty member is non-empty. -/
theorem join_ne_empty_of_mem (sep : String) (ls : List String) (l : String)
    (hl : l ∈ ls) (hne : l.data ≠ []) : pyJoin sep ls ≠ "" :=
  ne_empty_of_contains (mem_join_contains sep ls l hl) hne

/-- Trimming yields the empty list exactly when every character is
whitespace. -/
theorem trimChars_eq_nil_iff (l : List Char) :
    trimChars l = [] ↔ ∀ c ∈ l, wsChar c := by
  unfold trimChars
  constructor
  · intro h c hc
    rw [List.reverse_eq_nil_iff, List.dropWhile_eq_nil_iff] at h
    have hsplit := List.takeWhile_append_dropWhile (p := wsChar) (l := l)
    rw [← hsplit] at hc
    rcases List.mem_append.mp hc with h1 | h2
    · exact List.mem_takeWhile_imp h1
    · exact h _ (List.mem_reverse.mpr h2)
  · intro h
    have : l.dropWhile wsChar = [] :=
      List.dropWhile_eq_nil_iff.mpr (fun x hx => h x hx)
    simp [this]

/-- A non-whitespace member survives `List.dropWhile wsChar`. -/
theorem mem_dropWhile_wsChar {c : Char} :
    ∀ {l : List Char}, c ∈ l → wsChar c = false → c ∈ l.dropWhile wsChar := by
  intro l
  induction l with
  | nil => intro h; cases h
  | cons a t ih =>
    intro hc hw
    by_cases ha : wsChar a
    · rw [List.dropWhile_cons_of_pos ha]
      rcases List.mem_cons.mp hc with rfl | ht
      · rw [hw] at ha; cases ha
      · exact ih ht hw
    · rw [List.dropWhile_cons_of_neg ha]
      exact hc

/-- A non-whitespace member survives trimming. -/
theorem mem_trimChars {c : Char} {l : List Char} (hc : c ∈ l)
    (hw : wsChar c = false) : c ∈ trimChars l := by
  unfold trimChars
  rw [List.mem_reverse]
  exact mem_dropWhile_wsChar (List.mem_reverse.mpr (mem_dropWhile_wsChar hc hw)) hw

/-- Either no log contributes parts, or some stripped non-blank content is
among the parts. -/
theorem combinedParts_content_mem (logs : List WorkLog) :
    combinedParts logs = [] ∨
    ∃ lg : WorkLog, pyStrip lg.content ≠ "" ∧ pyStrip lg.content ∈ combinedParts logs := by
  induction logs with
  | nil => left; rfl
  | cons lg rest ih =>
    by_cases h : pyStrip lg.content = ""
    · simpa [combinedParts, h] using ih
    · right
      refine ⟨lg, h, ?_⟩
      simp [combinedParts, h]

/-- Strings built by `String.mk` are empty exactly when the data is. -/
theorem mk_eq_empty_iff (l : List Char) : (⟨l⟩ : String) = "" ↔ l = [] := by
  constructor
  · intro h
    have := congrArg String.data h
    simpa using this
  · intro h; rw [h]

/-- If the combined corpus strips to the empty string then it is already
the empty string (every contributing part has a non-whitespace character). -/
theorem combine_logs_strip_empty {logs : List WorkLog}
    (h : pyStrip (combine_logs logs) = "") : combine_logs logs = "" := by
  rcases combinedParts_content_mem logs with hnil | ⟨lg, hne, hmem⟩
  · rw [combine_logs, hnil]; rfl
  · exfalso
    have hne' : trimChars lg.content.data ≠ [] := by
      intro hx
      exact hne ((mk_eq_empty_iff _).mpr hx)
    obtain ⟨c, hcl, hcw⟩ : ∃ c ∈ lg.content.data, wsChar c = false := by
      by_contra hall
      push_neg at hall
      exact hne' ((trimChars_eq_nil_iff _).mpr
        (fun c hc => by simpa using hall c hc))
    have hct : c ∈ (pyStrip lg.content).data := mem_trimChars hcl hcw
    have hinf := mem_join_contains "\n" (combinedParts logs) _ hmem
    have hcj : c ∈ (combine_logs logs).data := hinf.subset hct
    have hz : trimChars (combine_logs logs).data = [] := by
      have := congrArg String.data h
      simpa [pyStrip] using this
    have := (trimChars_eq_nil_iff _).mp hz c hcj
    rw [hcw] at this
    cases this

/-- Members of an insertion are the inserted element or old members. -/
theorem mem_insertBy {α : Type} (bf : α → α → Bool) (a x : α) :
    ∀ l : List α, x ∈ insertBy bf a l → x = a ∨ x ∈ l := by
  intro l
  induction l with
  | nil => intro h; simpa [insertBy] using h
  | cons b t ih =>
    intro h
    rw [insertBy] at h
    by_cases hb : bf b a
    · rw [if_pos hb] at h
      rcases List.mem_cons.mp h with rfl | h2
      · right; exact List.mem_cons_self _ _
      · rcases ih h2 with h3 | h3
        · left; exact h3
        · right; exact List.mem_cons_of_mem _ h3
    · rw [if_neg hb] at h
      rcases List.mem_cons.mp h with rfl | h2
      · left; rfl
      · right; exact h2

/-- Inserting into a descending-by-count list keeps it descending. -/
theorem pairwise_insertBy_desc (a : String × Nat) (l : List (String × Nat))
    (hl : l.Pairwise (fun x y => y.2 ≤ x.2)) :
    (insertBy (fun b a2 => a2.2 < b.2) a l).Pairwise (fun x y => y.2 ≤ x.2) := by
  induction l with
  | nil => simp [insertBy]
  | cons b t ih =>
    obtain ⟨hb, ht⟩ := List.pairwise_cons.mp hl
    rw [insertBy]
    by_cases h : a.2 < b.2
    · rw [if_pos (by simpa using h)]
      refine List.pairwise_cons.mpr ⟨?_, ih ht⟩
      intro y hy
      rcases mem_insertBy _ _ _ _ hy with rfl | hy2
      · omega
      · exact hb y hy2
    · rw [if_neg (by simpa using h)]
      refine List.pairwise_cons.mpr ⟨?_, hl⟩
      intro y hy
      rcases List.mem_cons.mp hy with rfl | hy2
      · omega
      · have := hb y hy2; omega

/-- `sortBy` with the descending-count comparison sorts descending. -/
theorem pairwise_sortBy_desc (l : List (String × Nat)) :
    (sortBy (fun b a => a.2 < b.2) l).Pairwise (fun x y => y.2 ≤ x.2) := by
  induction l with
  | nil => simp [sortBy]
  | cons a t ih => exact pairwise_insertBy_desc a _ ih

/-- On a descending list, truncating before dropping counts ≤ 1 equals
dropping before truncating: the kept entries form a prefix. -/
theorem filter_take_comm_of_desc :
    ∀ (l : List (String × Nat)), l.Pairwise (fun x y => y.2 ≤ x.2) →
    ∀ n, (l.take n).filter (fun p => 1 < p.2) = (l.filter (fun p => 1 < p.2)).take n := by
  intro l
  induction l with
  | nil => intro _ n; simp
  | cons a t ih =>
    intro hl n
    obtain ⟨ha, ht⟩ := List.pairwise_cons.mp hl
    cases n with
    | zero => simp
    | succ n =>
      by_cases hp : 1 < a.2
      · simp [List.take_succ_cons, List.filter_cons, hp, ih ht n]
      · have hft : t.filter (fun p => 1 < p.2) = [] := by
          rw [List.filter_eq_nil_iff]
          intro x hx
          have := ha x hx
          simp only [decide_eq_true_eq]
          omega
        have hftk : (t.take n).filter (fun p => 1 < p.2) = [] := by
          rw [List.filter_eq_nil_iff]
          intro x hx
          have := ha x (List.take_subset n t hx)
          simp only [decide_eq_true_eq]
          omega
        simp [List.take_succ_cons, List.filter_cons, hp, hft, hftk]

/-- Claim C1 (counterexample): for the aliased field `weekly_summary` with
the data mapping `{"weekly_summary": "own-name value"}`, the source's
resolution (`resolveRaw`) yields the default `None`, while the claimed
rule (`resolveSpec`: alias target, then own name, then default) yields the
value stored under the field's own name — the code never falls back to the
field's own name. -/
theorem c1_field_resolution_counterexample :
    resolveRaw fieldAliased [("weekly_summary", PyValue.str "own-name value")] =
      PyValue.none ∧
    resolveSpec fieldAliased [("weekly_summary", PyValue.str "own-name value")] =
      PyValue.str "own-name value" ∧
    resolveRaw fieldAliased [("weekly_summary", PyValue.str "own-name value")] ≠
      resolveSpec fieldAliased [("weekly_summary", PyValue.str "own-name value")] := by
  refine ⟨rfl, rfl, ?_⟩
  intro h
  exact PyValue.noConfusion h

/-- Claim C1 (amended): field resolution looks up exactly one key in the
data mapping — the alias-table target when the field's name is aliased,
the field's own name otherwise — and falls back directly to the field's
configured default; the field's own name is never consulted as a second
lookup. -/
theorem c1_field_resolution (f : TemplateField) (data : List (String × PyValue)) :
    (∀ k, pyGet field_mapping f.name = some k →
      resolveRaw f data = (pyGet data k).getD f.default) ∧
    (pyGet field_mapping f.name = Option.none →
      resolveRaw f data = (pyGet data f.name).getD f.default) := by
  constructor
  · intro k hk
    simp [resolveRaw, hk]
  · intro hk
    simp [resolveRaw, hk]

/-- Witness for C1: both branches of the amended rule evaluated at
concrete inputs. -/
theorem c1_field_resolution_witness :
    resolveRaw fieldAliased [("summary_text", PyValue.str "S")] = PyValue.str "S" ∧
    resolveRaw fieldPlain [("free_text", PyValue.str "B")] = PyValue.str "B" := by
  constructor
  · have h := (c1_field_resolution fieldAliased
      [("summary_text", PyValue.str "S")]).1 "summary_text" rfl
    simpa using h
  · have h := (c1_field_resolution fieldPlain
      [("free_text", PyValue.str "B")]).2 rfl
    simpa using h

/-- Claim C2 (counterexample): after `save_template`, `load_template` is
served from the cache, which holds the original in-memory template — the
returned template equals the saved one in every field, so its
`updated_at` (still the original `2024-01-01T00:00:00`) is not strictly
later than the saved template's `updated_at`. -/
theorem c2_save_load_counterexample :
    (load_template (save_template st0 t2demo "2025-05-05T00:00:00").2 "t1"
      "2025-05-05T00:00:01").1 = some t2demo ∧
    t2demo.updated_at = "2024-01-01T00:00:00" :=
  ⟨rfl, rfl⟩

/-- Claim C2 (amended): `save(template)` followed by `load(template.id)`
returns a Template equal to the saved one in every field *including*
`updated_at`: the load is a cache hit on the very object `save` cached,
and only the serialized backing file receives the refreshed timestamp. -/
theorem c2_save_load (st : EngineState) (t : Template) (now now2 : String) :
    (load_template (save_template st t now).2 t.id now2).1 = some t := by
  simp [save_template, load_template, pyGet_pyDictInsert_self]

/-- Claim C3: `apply_template` is a total function of its inputs (so it
never raises in this model), and whenever the template id does not resolve
to a loadable template, the result is the `error` shape whose message
contains that template id as an infix. -/
theorem c3_apply_missing_template (st : EngineState) (template_id : String)
    (data : List (String × PyValue)) (now : String)
    (h : (load_template st template_id now).1 = Option.none) :
    (apply_template st template_id data now).1 =
      ApplyOutcome.error ("テンプレート '" ++ template_id ++ "' が見つかりません") ∧
    template_id.data <:+:
      ("テンプレート '" ++ template_id ++ "' が見つかりません").data := by
  constructor
  · rw [apply_template]
    rcases hl : load_template st template_id now with ⟨fst, snd⟩
    rw [hl] at h
    simp at h
    subst h
    rfl
  · refine ⟨("テンプレート '").data, ("' が見つかりません").data, ?_⟩
    simp [String.data_append]

/-- Witness for C3: the concrete scenario
`apply("nonexistent_template_id", {})` on a fresh engine state. -/
theorem c3_apply_missing_template_witness :
    (apply_template st0 "nonexistent_template_id" [] "t").1 =
      ApplyOutcome.error "テンプレート 'nonexistent_template_id' が見つかりません" ∧
    ("nonexistent_template_id").data <:+:
      ("テンプレート 'nonexistent_template_id' が見つかりません").data := by
  have h := c3_apply_missing_template st0 "nonexistent_template_id" [] "t" rfl
  exact ⟨h.1, h.2⟩

/-- Claim C4: `_extract_summary` always returns a non-empty list; when
preprocessing yields an empty string it returns exactly the
nothing-to-summarize sentinel; and a ranking failure is caught and turned
into a single descriptive sentence. -/
theorem c4_extract_summary_total (s : SummarizerM) (text method : String)
    (cnt : Nat) :
    extract_summary s text method cnt ≠ [] ∧
    (pyStrip (preprocess_text text) = "" →
      extract_summary s text method cnt = ["要約するテキストがありません。"]) ∧
    (∀ e, pyStrip (preprocess_text text) ≠ "" →
      selectRanker s method (preprocess_text text) cnt = Except.error e →
      extract_summary s text method cnt =
        ["要約の生成中にエラーが発生しました: " ++ e]) := by
  refine ⟨?_, ?_, ?_⟩
  · by_cases h : pyStrip (preprocess_text text) = ""
    · simp [extract_summary, h]
    · rcases hr : selectRanker s method (preprocess_text text) cnt with e | l
      · simp [extract_summary, h, hr]
      · by_cases hl : l.isEmpty
        · simp [extract_summary, h, hr, hl]
        · have hl' : l ≠ [] := by
            intro hx; rw [hx] at hl; exact hl rfl
          have hle : l.isEmpty = false := by
            cases l with
            | nil => exact absurd rfl hl'
            | cons a t2 => rfl
          simp [extract_summary, h, hr, hle, hl']
  · intro h
    simp [extract_summary, h]
  · intro e h hr
    simp [extract_summary, h, hr]

/-- Witness for C4: the empty-input and ranking-failure branches at
concrete inputs. -/
theorem c4_extract_summary_total_witness :
    extract_summary sdemoErr "" "textrank" 2 = ["要約するテキストがありません。"] ∧
    extract_summary sdemoErr "hello" "textrank" 2 =
      ["要約の生成中にエラーが発生しました: boom"] :=
  ⟨(c4_extract_summary_total sdemoErr "" "textrank" 2).2.1 rfl,
   (c4_extract_summary_total sdemoErr "hello" "textrank" 2).2.2 "boom"
     (by decide) rfl⟩

/-- Claim C5: for a required field whose raw resolved value is `None` or
the empty string, `_get_field_value` substitutes a visible placeholder:
bespoke Japanese text for `week_start_date`/`week_end_date` (指定なし),
`reporter_name` (報告者名未設定) and `department` (部署未設定), and the
generic "required field not filled" text for every other field name. -/
theorem c5_required_placeholder (f : TemplateField)
    (data : List (String × PyValue)) (hreq : f.required = true)
    (hempty : isNoneOrEmptyStr (resolveRaw f data) = true) :
    get_field_value f data =
      (if f.name = "week_start_date" ∨ f.name = "week_end_date" then
        PyValue.str "指定なし"
       else if f.name = "reporter_name" then PyValue.str "報告者名未設定"
       else if f.name = "department" then PyValue.str "部署未設定"
       else PyValue.str ("[必須フィールド '" ++ f.name ++ "' が未入力です]")) := by
  rw [get_field_value]
  simp only [hreq, hempty, Bool.and_self, if_pos]
  by_cases h1 : f.name = "week_start_date"
  · simp [h1]
  · by_cases h2 : f.name = "week_end_date"
    · simp [h2]
    · by_cases h3 : f.name = "reporter_name"
      · simp [h1, h2, h3]
      · by_cases h4 : f.name = "department"
        · simp [h1, h2, h3, h4]
        · simp [h1, h2, h3, h4]

/-- Witness for C5: the concrete scenario of a required `reporter_name`
field with no matching key — the bespoke placeholder, not the generic
one. -/
theorem c5_required_placeholder_witness :
    get_field_value fieldReporter [] = PyValue.str "報告者名未設定" := by
  have h := c5_required_placeholder fieldReporter [] rfl rfl
  simpa using h

/-- Claim C6: the corpus builder's parts contain the trimmed content of
every non-blank entry, in input order (as a sublist), and an entry with
blank content contributes nothing at all — removing it leaves the parts
unchanged. -/
theorem c6_combine_logs (logs : List WorkLog) :
    ((logs.filter (fun lg => !(pyStrip lg.content == ""))).map
        (fun lg => pyStrip lg.content)).Sublist (combinedParts logs) ∧
    ∀ l1 l2 lg, pyStrip lg.content = "" →
      combinedParts (l1 ++ lg :: l2) = combinedParts (l1 ++ l2) := by
  constructor
  · induction logs with
    | nil => simp [combinedParts]
    | cons lg rest ih =>
      by_cases h : pyStrip lg.content = ""
      · simpa [combinedParts, h] using ih
      · have hstep :
            (pyStrip lg.content ::
              (rest.filter (fun lg2 => !(pyStrip lg2.content == ""))).map
                (fun lg2 => pyStrip lg2.content)).Sublist
              (pyStrip lg.content :: "" :: combinedParts rest) :=
          List.Sublist.cons₂ _ (List.Sublist.cons _ ih)
        simp only [combinedParts, h]
        rcases hd : parse_date lg.date with _ | d
        · simpa [List.filter_cons, h, hd] using hstep
        · have := hstep.trans
            (List.sublist_append_right ["【" ++ format_date_japanese d ++ "】"]
              (pyStrip lg.content :: "" :: combinedParts rest))
          simpa [List.filter_cons, h, hd] using this
  · intro l1 l2 lg h
    induction l1 with
    | nil => simp [combinedParts, h]
    | cons a t ih =>
      by_cases ha : pyStrip a.content = "" <;>
        simp [combinedParts, ha, ih]

/-- Witness for C6: a whitespace-only entry between two real entries
contributes nothing. -/
theorem c6_combine_logs_witness :
    combinedParts ([logA] ++ logBlank :: [logB]) = combinedParts ([logA] ++ [logB]) :=
  (c6_combine_logs []).2 [logA] [logB] logBlank rfl

/-- Claim C7: the generic keyword path equals the specification's
pipeline order (sort descending, drop frequency ≤ 1, truncate), returns at
most `max_points` entries, every returned word has frequency > 1 in the
ranked table, and on `"foo bar foo baz foo"` with `max_points = 2` it
returns exactly `["foo"]` — `bar` and `baz` are excluded. -/
theorem c7_key_points :
    (∀ (s : SummarizerM) (text : String) (mp : Nat),
      extract_key_points_generic s text mp = extract_key_points_spec s text mp ∧
      (extract_key_points_generic s text mp).length ≤ mp ∧
      ∀ w ∈ extract_key_points_generic s text mp,
        ∃ n, (w, n) ∈ rankedWordFreq s text ∧ 1 < n) ∧
    extract_key_points_generic sdemoPlain "foo bar foo baz foo" 2 = ["foo"] := by
  constructor
  · intro s text mp
    refine ⟨?_, ?_, ?_⟩
    · rw [extract_key_points_generic, extract_key_points_spec]
      exact congrArg (List.map (fun p => p.1))
        (filter_take_comm_of_desc (rankedWordFreq s text)
          (pairwise_sortBy_desc _) mp)
    · calc (extract_key_points_generic s text mp).length
          ≤ ((rankedWordFreq s text).take mp).length := by
            rw [extract_key_points_generic, List.length_map]
            exact List.length_filter_le _ _
        _ ≤ mp := by
            rw [List.length_take]
            exact min_le_left _ _
    · intro w hw
      rw [extract_key_points_generic] at hw
      obtain ⟨p, hp, rfl⟩ := List.mem_map.mp hw
      have hpf := List.mem_filter.mp hp
      refine ⟨p.2, List.take_subset mp _ hpf.1, ?_⟩
      simpa using hpf.2
  · rfl

/-- Witness for C7: `"foo"` is in the result of the concrete scenario and
its frequency exceeds 1. -/
theorem c7_key_points_witness :
    ∃ n, ("foo", n) ∈ rankedWordFreq sdemoPlain "foo bar foo baz foo" ∧ 1 < n :=
  (c7_key_points.1 sdemoPlain "foo bar foo baz foo" 2).2.2 "foo" (by decide)

/-- The compression-ratio expression of `summarize_work_logs` is never
negative. -/
theorem ratio_nonneg (wc oc : ℕ) :
    0 ≤ (if 0 < oc then ((wc : ℚ) / (oc : ℚ)) * 100 else 0) := by
  split_ifs
  · positivity
  · exact le_refl 0

/-- Claim C8 (counterexample): on an empty log list the early return sets
`word_count = 0` while `summary_text` is the 15-character sentinel, so
`word_count` is not the character count of the summary text. -/
theorem c8_statistics_counterexample :
    (summarize_work_logs sdemoPlain [] "textrank" 5 "t").word_count = 0 ∧
    (summarize_work_logs sdemoPlain [] "textrank" 5 "t").summary_text.length = 15 ∧
    (summarize_work_logs sdemoPlain [] "textrank" 5 "t").word_count ≠
      (summarize_work_logs sdemoPlain [] "textrank" 5 "t").summary_text.length := by
  refine ⟨rfl, rfl, ?_⟩
  intro h
  rw [show (summarize_work_logs sdemoPlain [] "textrank" 5 "t").word_count = 0
      from rfl,
    show (summarize_work_logs sdemoPlain [] "textrank" 5 "t").summary_text.length = 15
      from rfl] at h
  cases h

/-- Claim C8 (amended): `original_count` is always the character count of
the combined source text and `compression_ratio` equals
`word_count / original_count * 100` when `original_count > 0` and exactly
`0` otherwise, hence is always ≥ 0; `word_count` is the character count of
the joined summary text whenever the combined corpus is non-blank, but on
a blank corpus the early return fixes `word_count = 0` (not the sentinel
summary's length). -/
theorem c8_statistics (s : SummarizerM) (logs : List WorkLog) (method : String)
    (cnt : Nat) (now : String) :
    (summarize_work_logs s logs method cnt now).original_count =
      (combine_logs logs).length ∧
    (pyStrip (combine_logs logs) ≠ "" →
      (summarize_work_logs s logs method cnt now).word_count =
        (summarize_work_logs s logs method cnt now).summary_text.length) ∧
    (pyStrip (combine_logs logs) = "" →
      (summarize_work_logs s logs method cnt now).word_count = 0) ∧
    (summarize_work_logs s logs method cnt now).compression_ratio =
      (if 0 < (summarize_work_logs s logs method cnt now).original_count then
        ((summarize_work_logs s logs method cnt now).word_count : ℚ) /
          ((summarize_work_logs s logs method cnt now).original_count : ℚ) * 100
       else 0) ∧
    0 ≤ (summarize_work_logs s logs method cnt now).compression_ratio := by
  by_cases h : pyStrip (combine_logs logs) = ""
  · have hc : combine_logs logs = "" := combine_logs_strip_empty h
    have hif : summarize_work_logs s logs method cnt now =
        { summary_text := "要約するテキストがありません。", key_points := [],
          word_count := 0, original_count := 0, compression_ratio := 0,
          method := method, created_at := now } := by
      simp [summarize_work_logs, h]
    rw [hif]
    refine ⟨?_, fun hx => absurd h hx, fun _ => rfl, by simp, le_refl 0⟩
    rw [hc]
    rfl
  · have hif : summarize_work_logs s logs method cnt now =
        { summary_text := pyJoin "\n" (extract_summary s (combine_logs logs) method cnt)
          key_points := extract_key_points s (combine_logs logs)
          word_count :=
            (pyJoin "\n" (extract_summary s (combine_logs logs) method cnt)).length
          original_count := (combine_logs logs).length
          compression_ratio :=
            if 0 < (combine_logs logs).length then
              (((pyJoin "\n" (extract_summary s (combine_logs logs) method cnt)).length : ℚ) /
                ((combine_logs logs).length : ℚ)) * 100
            else 0
          method := method
          created_at := now } := by
      simp only [summarize_work_logs]
      rw [if_neg (show ¬((pyStrip (combine_logs logs) == "") = true) by simp [h])]
    refine ⟨?_, ?_, ?_, ?_, ?_⟩
    · rw [hif]
    · intro _
      rw [hif]
    · intro hx
      exact absurd hx h
    · rw [hif]
    · rw [hif]
      exact ratio_nonneg _ _

/-- Witness for C8: both implications of the amended statistics claim at
concrete inputs (one non-blank corpus, one empty corpus). -/
theorem c8_statistics_witness :
    (summarize_work_logs sdemoPlain [logA] "textrank" 5 "t").word_count =
      (summarize_work_logs sdemoPlain [logA] "textrank" 5 "t").summary_text.length ∧
    (summarize_work_logs sdemoPlain [] "textrank" 5 "t").word_count = 0 :=
  ⟨(c8_statistics sdemoPlain [logA] "textrank" 5 "t").2.1 (by decide),
   (c8_statistics sdemoPlain [] "textrank" 5 "t").2.2.1 rfl⟩

/-- Claim C9: `format_output` always returns a non-empty string containing
the template name and the generation timestamp, for every application
result (including one with no sections) and every output format. -/
theorem c9_format_output (r : TemplateResult) (output_format : String) :
    format_output r output_format ≠ "" ∧
    r.template_name.data <:+: (format_output r output_format).data ∧
    r.generated_at.data <:+: (format_output r output_format).data := by
  rw [format_output]
  by_cases h1 : output_format == "markdown"
  · rw [if_pos h1]
    refine ⟨?_, ?_, ?_⟩
    · refine join_ne_empty_of_mem "\n" _ ("# " ++ r.template_name) ?_ ?_
      · simp [format_markdown_lines]
      · simp [String.data_append]
    · refine join_contains_of_line_contains "\n" _ _ ("# " ++ r.template_name) ?_ ?_
      · simp [format_markdown_lines]
      · exact ⟨("# ").data, [], by simp [String.data_append]⟩
    · refine join_contains_of_line_contains "\n" _ _ ("**作成日時**: " ++ r.generated_at) ?_ ?_
      · simp [format_markdown_lines]
      · exact ⟨("**作成日時**: ").data, [], by simp [String.data_append]⟩
  · rw [if_neg h1]
    by_cases h2 : output_format == "html"
    · rw [if_pos h2]
      refine ⟨?_, ?_, ?_⟩
      · refine join_ne_empty_of_mem "\n" _
          ("<html><head><meta charset='utf-8'></head><body>") ?_ ?_
        · simp [format_html_lines]
        · simp
      · refine join_contains_of_line_contains "\n" _ _
          ("<h1>" ++ r.template_name ++ "</h1>") ?_ ?_
        · simp [format_html_lines]
        · exact ⟨("<h1>").data, ("</h1>").data, by simp [String.data_append]⟩
      · refine join_contains_of_line_contains "\n" _ _
          ("<p><strong>作成日時</strong>: " ++ r.generated_at ++ "</p>") ?_ ?_
        · simp [format_html_lines]
        · exact ⟨("<p><strong>作成日時</strong>: ").data, ("</p>").data,
            by simp [String.data_append]⟩
    · rw [if_neg h2]
      refine ⟨?_, ?_, ?_⟩
      · refine join_ne_empty_of_mem "\n" _ ("# " ++ r.template_name) ?_ ?_
        · simp [format_text_lines]
        · simp [String.data_append]
      · refine join_contains_of_line_contains "\n" _ _ ("# " ++ r.template_name) ?_ ?_
        · simp [format_text_lines]
        · exact ⟨("# ").data, [], by simp [String.data_append]⟩
      · refine join_contains_of_line_contains "\n" _ _ ("作成日時: " ++ r.generated_at) ?_ ?_
        · simp [format_text_lines]
        · exact ⟨("作成日時: ").data, [], by simp [String.data_append]⟩

/-- Claim C10: an unknown method string falls back to the textrank ranker
(同じ要約文), while the result's `method` field records the caller-supplied
string. -/
theorem c10_method_fallback (s : SummarizerM) (logs : List WorkLog)
    (text : String) (cnt : Nat) (now : String) (method : String)
    (h1 : method ≠ "textrank") (h2 : method ≠ "lexrank") (h3 : method ≠ "lsa") :
    extract_summary s text method cnt = extract_summary s text "textrank" cnt ∧
    (summarize_work_logs s logs method cnt now).method = method := by
  constructor
  · have hsel : selectRanker s method = s.rank_textrank := by
      simp [selectRanker, h1, h2, h3]
    have hsel2 : selectRanker s "textrank" = s.rank_textrank := by
      simp [selectRanker]
    rw [extract_summary, extract_summary, hsel, hsel2]
  · rw [summarize_work_logs]
    split
    · rfl
    · rfl

/-- Witness for C10: the unknown method `"unknown"` at concrete inputs. -/
theorem c10_method_fallback_witness :
    extract_summary sdemoPlain "abc" "unknown" 2 =
      extract_summary sdemoPlain "abc" "textrank" 2 ∧
    (summarize_work_logs sdemoPlain [] "unknown" 2 "t").method = "unknown" :=
  c10_method_fallback sdemoPlain [] "abc" 2 "t" "unknown" (by decide) (by decide)
    (by decide)
